import Mathlib

/-!
Shallow embedding of the incident-reconciliation system
(`src/models/incident.py`, `src/storage/json_store.py`,
`src/storage/dynamodb_store.py`, `src/aws/datadog_client.py`,
`src/services/incident_service.py`).

Modelling conventions:
* Python `datetime` instants are modelled as `Nat`.  `datetime.isoformat`
  is injective and `datetime.fromisoformat (d.isoformat()) = d` in Python,
  so a serialized ISO-8601 timestamp string is represented by the instant
  it denotes; `null` timestamps are `Option.none`.
* A Python dict field is modelled by `DVal`: the key can be absent, present
  with value `None`, or present with a value.  `d[k]` (subscript, may raise
  `KeyError`) is `DVal.item`; `d.get(k)` is `DVal.getOpt`; `d.get(k, dflt)`
  is `DVal.get dflt`.
* Attributes that Python may set to `None` are `Option`-typed on `Incident`.
* In-place mutation with raise-before-mutate (`acknowledge`, `resolve`) is
  modelled by returning the post-state plus an optional raised message: on
  error the post-state is the unchanged input, exactly as in the source,
  where the `raise` precedes every assignment.
* `datetime.now()` / `uuid.uuid4()` are modelled by explicit `now` / fresh
  identifier parameters.
-/

/-- Value of one key of a Python dict: the key may be absent, present with
value `None`, or present with a proper value. -/
inductive DVal (α : Type) where
  | absent
  | null
  | val (a : α)
deriving DecidableEq, Repr

/-- Python subscript `d[k]`: raises `KeyError` when the key is absent,
otherwise yields the stored value (`None` included). -/
def DVal.item {α : Type} : DVal α → Except String (Option α)
  | .absent => .error "KeyError"
  | .null => .ok none
  | .val a => .ok (some a)

/-- Python `d.get(k)` (no default): absent and `None` both give `None`. -/
def DVal.getOpt {α : Type} : DVal α → Option α
  | .absent => none
  | .null => none
  | .val a => some a

/-- Python `d.get(k, dflt)`: the default applies only when the key is
absent; an explicit `None` value is returned as `None`. -/
def DVal.get {α : Type} (d : DVal α) (dflt : α) : Option α :=
  match d with
  | .absent => some dflt
  | .null => none
  | .val a => some a

/-- Embeds an attribute value (possibly `None`) as a present dict entry,
as `to_dict` does. -/
def DVal.ofOpt {α : Type} : Option α → DVal α
  | none => .null
  | some a => .val a

/-- Python `f"{x}"` on an optional string attribute: `None` prints as
"None". -/
def pyDisplay : Option String → String
  | none => "None"
  | some s => s

/-- The `Incident` object of `src/models/incident.py`.  Fields that Python
can hold as `None` are `Option`-typed; timestamps are instants (`Nat`). -/
structure Incident where
  id : Option String
  title : Option String
  description : Option String
  severity : Option Int
  source : Option String
  datadog_alert_id : Option String
  status : Option String
  assignee : Option String
  detected_at : Option Nat
  acknowledged_at : Option Nat
  resolved_at : Option Nat
  root_cause : Option String
  resolution_steps : Option (List String)
  tags : Option (List String)
deriving DecidableEq, Repr

/-- `Incident.__init__`: fresh identifier `fid` stands for `uuid.uuid4()`,
`now` for `datetime.now()`. -/
def Incident.create (fid : String) (now : Nat) (title description : Option String)
    (severity : Option Int) (source : Option String := some "manual")
    (datadog_alert_id : Option String := none) : Incident :=
  { id := some fid
    title := title
    description := description
    severity := severity
    source := source
    datadog_alert_id := datadog_alert_id
    status := some "detected"
    assignee := none
    detected_at := some now
    acknowledged_at := none
    resolved_at := none
    root_cause := none
    resolution_steps := some []
    tags := some [] }

/-- `Incident.acknowledge`: raises (second component `some message`)
before mutating unless the status is "detected". -/
def Incident.acknowledge (inc : Incident) (assignee : String) (now : Nat) :
    Incident × Option String :=
  if inc.status ≠ some "detected" then
    (inc, some ("Cannot acknowledge incident in " ++ pyDisplay inc.status ++ " status"))
  else
    ({ inc with status := some "acknowledged", assignee := some assignee,
                acknowledged_at := some now }, none)

/-- `Incident.resolve`: raises before mutating unless the status is in
`["detected", "acknowledged"]`. -/
def Incident.resolve (inc : Incident) (root_cause : String)
    (resolution_steps : List String) (now : Nat) : Incident × Option String :=
  if ¬ (inc.status = some "detected" ∨ inc.status = some "acknowledged") then
    (inc, some ("Cannot resolve incident in " ++ pyDisplay inc.status ++ " status"))
  else
    ({ inc with status := some "resolved", root_cause := some root_cause,
                resolution_steps := some resolution_steps,
                resolved_at := some now }, none)

/-- The dict produced by `Incident.to_dict` and consumed by
`Incident.from_dict`: all fourteen keys of the persisted record. -/
structure IncidentRecord where
  id : DVal String
  title : DVal String
  description : DVal String
  severity : DVal Int
  source : DVal String
  datadog_alert_id : DVal String
  status : DVal String
  assignee : DVal String
  detected_at : DVal Nat
  acknowledged_at : DVal Nat
  resolved_at : DVal Nat
  root_cause : DVal String
  resolution_steps : DVal (List String)
  tags : DVal (List String)
deriving DecidableEq, Repr

/-- `Incident.to_dict`: every key is emitted; `None` attributes become
`null` entries; `x.isoformat() if x else None` on a timestamp is the
identity under the instant abstraction (a datetime object is always
truthy). -/
def Incident.to_dict (inc : Incident) : IncidentRecord :=
  { id := .ofOpt inc.id
    title := .ofOpt inc.title
    description := .ofOpt inc.description
    severity := .ofOpt inc.severity
    source := .ofOpt inc.source
    datadog_alert_id := .ofOpt inc.datadog_alert_id
    status := .ofOpt inc.status
    assignee := .ofOpt inc.assignee
    detected_at := .ofOpt inc.detected_at
    acknowledged_at := .ofOpt inc.acknowledged_at
    resolved_at := .ofOpt inc.resolved_at
    root_cause := .ofOpt inc.root_cause
    resolution_steps := .ofOpt inc.resolution_steps
    tags := .ofOpt inc.tags }

/-- One `if data.get(k): incident.k = fromisoformat(data[k])` step of
`from_dict`: overwrite the constructed timestamp only when the record
holds a non-null value (an ISO string is never empty, hence truthy). -/
def overrideTime (cur : Option Nat) (d : DVal Nat) : Option Nat :=
  match d.getOpt with
  | some t => some t
  | none => cur

/-- `Incident.from_dict`: construct through `__init__` (fresh identifier
and `now`), then overwrite identity, lifecycle and resolution fields from
the record.  Subscripted keys (`title`, `description`, `severity`, `id`,
`status`) raise `KeyError` when absent, in source evaluation order. -/
def Incident.from_dict (fid : String) (now : Nat) (data : IncidentRecord) :
    Except String Incident :=
  match data.title.item with
  | .error e => .error e
  | .ok title =>
    match data.description.item with
    | .error e => .error e
    | .ok description =>
      match data.severity.item with
      | .error e => .error e
      | .ok severity =>
        match data.id.item with
        | .error e => .error e
        | .ok idv =>
          match data.status.item with
          | .error e => .error e
          | .ok status =>
            let base := Incident.create fid now title description severity
              (data.source.get "manual") data.datadog_alert_id.getOpt
            .ok { base with
              id := idv
              status := status
              assignee := data.assignee.getOpt
              tags := data.tags.get []
              root_cause := data.root_cause.getOpt
              resolution_steps := data.resolution_steps.get []
              detected_at := overrideTime base.detected_at data.detected_at
              acknowledged_at := overrideTime base.acknowledged_at data.acknowledged_at
              resolved_at := overrideTime base.resolved_at data.resolved_at }

/-- Rank of a lifecycle status along detected → acknowledged → resolved. -/
def statusRank : Option String → Nat
  | some "acknowledged" => 1
  | some "resolved" => 2
  | _ => 0

/-- State of a store: the persisted incident collection.  The file-backed
store round-trips the entire JSON array per operation; the table-backed
store holds one item per incident.  Both are modelled by the list of
stored incidents. -/
abbrev StoreState := List Incident

/-- `IncidentStore.save` of `src/storage/json_store.py`: linear scan for
the first entry with the same `id`, replace it in place, else append. -/
def Store.save (store : StoreState) (inc : Incident) : StoreState :=
  match store with
  | [] => [inc]
  | e :: rest => if e.id == inc.id then inc :: rest else e :: Store.save rest inc

/-- `IncidentStore.load_all`: returns the whole stored collection. -/
def Store.load_all (store : StoreState) : List Incident := store

/-- `IncidentStore.find_by_id`: first entry with the given `id`, else
not-found. -/
def Store.find_by_id (store : StoreState) (incident_id : String) : Option Incident :=
  (store.filter (fun inc => inc.id == some incident_id)).head?

/-- `IncidentStore.find_by_status`: equality filter on `status` (the
table-backed `status-index` query is the same equality filter). -/
def Store.find_by_status (store : StoreState) (status : String) : List Incident :=
  store.filter (fun inc => inc.status == some status)

/-- `DynamoDBStore.find_by_datadog_alert_id` of
`src/storage/dynamodb_store.py`, the only implementation of this lookup
under `src/`: `if not alert_id: return None` short-circuits on `None` and
on the empty string, otherwise an equality query on the
`datadog-alert-id-index` returns the first matching item or not-found. -/
def Store.find_by_datadog_alert_id (store : StoreState) (alert_id : Option String) :
    Option Incident :=
  match alert_id with
  | none => none
  | some s =>
    if s = "" then none
    else (store.filter (fun inc => inc.datadog_alert_id == some s)).head?

/-- Method names defined by the class body of `IncidentStore` in
`src/storage/json_store.py`. -/
def IncidentStoreMethodNames : List String :=
  ["__init__", "save", "load_all", "find_by_id", "find_by_status", "_write_to_file"]

/-- Method names defined by the class body of `DynamoDBStore` in
`src/storage/dynamodb_store.py`. -/
def DynamoDBStoreMethodNames : List String :=
  ["__init__", "_ensure_table_exists", "_create_table", "save", "load_all",
   "find_by_id", "find_by_status", "find_by_datadog_alert_id"]

/-- Store methods invoked by `IncidentService.sync_datadog_alerts`
(`src/services/incident_service.py`, lines 35 and 43). -/
def syncStoreCalls : List String := ["find_by_datadog_alert_id", "save"]

/-- An alert dict as the service consumes it; each field is a dict entry
that may be absent, null, or present. -/
structure Alert where
  id : DVal String
  name : DVal String
  message : DVal String
  state : DVal String
  tags : DVal (List String)
deriving DecidableEq, Repr

/-- A Datadog monitor as `DatadogClient.get_active_alerts` reads it;
`tags` is `none` when the attribute is missing (`hasattr` check). -/
structure Monitor where
  id : String
  name : String
  message : String
  overall_state : String
  tags : Option (List String)
deriving DecidableEq, Repr

/-- `DatadogClient.get_active_alerts` of `src/aws/datadog_client.py`: the
whole fetch is wrapped in try/except — an API failure is logged and
yields `[]`; otherwise monitors in state "Alert" or "Warn" are mapped to
alert dicts with all five keys present. -/
def DatadogClient.get_active_alerts (response : Except String (List Monitor)) :
    List Alert :=
  match response with
  | .error _ => []
  | .ok monitors =>
    (monitors.filter (fun m => m.overall_state == "Alert" || m.overall_state == "Warn")).map
      (fun m => { id := .val m.id, name := .val m.name, message := .val m.message,
                  state := .val m.overall_state, tags := .val (m.tags.getD []) })

/-- The severity lookup of `IncidentService._create_incident_from_alert`:
`alert.get("state", "Alert")` (an absent key defaults to "Alert", a null
value stays `None`), then `severity_map.get(alert_state, 4)`. -/
def severityFromState (st : DVal String) : Int :=
  match st.get "Alert" with
  | none => 4
  | some s =>
    if s = "Alert" then 5
    else if s = "Warn" then 3
    else if s = "No Data" then 2
    else 4

/-- `IncidentService._create_incident_from_alert`: builds the incident
from the alert dict and copies tags when `alert.get("tags")` is truthy
(a non-empty list). -/
def IncidentService.create_incident_from_alert (fid : String) (now : Nat)
    (alert : Alert) : Incident :=
  let severity := severityFromState alert.state
  let incident := Incident.create fid now (alert.name.get "Unknown Alert")
    (alert.message.get "No description") (some severity) (some "datadog")
    alert.id.getOpt
  match alert.tags.getOpt with
  | some ts => if ts.isEmpty then incident else { incident with tags := some ts }
  | none => incident

/-- The per-alert loop of `IncidentService.sync_datadog_alerts`:
`alert["id"]` (may raise `KeyError`), skip when the store already holds an
incident for that alert id, else create, save, and collect.  `k` indexes
the fresh-identifier and clock supplies. -/
def IncidentService.syncLoop (fid : Nat → String) (now : Nat → Nat) :
    Nat → List Alert → StoreState → List Incident →
    Except String (StoreState × List Incident)
  | _, [], store, created => .ok (store, created)
  | k, alert :: rest, store, created =>
    match alert.id.item with
    | .error e => .error e
    | .ok aid =>
      match Store.find_by_datadog_alert_id store aid with
      | some _ => IncidentService.syncLoop fid now (k + 1) rest store created
      | none =>
        let inc := IncidentService.create_incident_from_alert (fid k) (now k) alert
        IncidentService.syncLoop fid now (k + 1) rest (Store.save store inc)
          (created ++ [inc])

/-- `IncidentService.sync_datadog_alerts`: with no client configured,
print a diagnostic and return `[]`; otherwise run the loop over the
client's current alert list.  Returns the final store state together with
the list of newly created incidents. -/
def IncidentService.sync_datadog_alerts (fid : Nat → String) (now : Nat → Nat)
    (client : Option (List Alert)) (store : StoreState) :
    Except String (StoreState × List Incident) :=
  match client with
  | none => .ok (store, [])
  | some alerts => IncidentService.syncLoop fid now 0 alerts store []

/-- `IncidentService.get_all_incidents`. -/
def IncidentService.get_all_incidents (store : StoreState) : List Incident :=
  Store.load_all store

/-- `IncidentService.get_active_incidents`: the "detected" query
concatenated with the "acknowledged" query. -/
def IncidentService.get_active_incidents (store : StoreState) : List Incident :=
  Store.find_by_status store "detected" ++ Store.find_by_status store "acknowledged"

/-- Predicate for an incident counted as active. -/
def activeP (inc : Incident) : Bool :=
  inc.status == some "detected" || inc.status == some "acknowledged"

/-! ### Shared sample values for witnesses -/

/-- A freshly created incident (status "detected"), as `Incident.create`
produces it. -/
def sampleIncident : Incident :=
  Incident.create "incident-0" 0 (some "High CPU") (some "CPU above 90 percent")
    (some 3) (some "manual") none

/-- An alert dict with no keys at all. -/
def emptyAlert : Alert :=
  { id := .absent, name := .absent, message := .absent, state := .absent,
    tags := .absent }

/-- Tests whether a dict entry holds a present, non-empty string — the
condition under which the table-backed duplicate lookup can match. -/
def DVal.isNonemptyVal : DVal String → Bool
  | .val s => s != ""
  | _ => false

/-- A second freshly created incident with a distinct identifier. -/
def sampleIncident2 : Incident :=
  Incident.create "incident-1" 0 (some "Slow API") (some "p95 above 500ms")
    (some 2) (some "manual") none

/-- Fresh-identifier supply used by concrete witnesses: decimal numerals,
pairwise distinct. -/
def natId : Nat → String := fun k => Nat.repr k

/-- An alert whose dict holds an empty-string id and nothing else. -/
def emptyIdAlert : Alert :=
  { id := .val "", name := .absent, message := .absent, state := .absent,
    tags := .absent }

/-- The incident the service creates from `emptyIdAlert` at loop index 0
with supplies `natId` and `id`. -/
def c3inc0 : Incident :=
  IncidentService.create_incident_from_alert (natId 0) 0 emptyIdAlert

/-- A serialized record whose `detected_at` entry is null. -/
def c9record : IncidentRecord :=
  { sampleIncident.to_dict with detected_at := .null }

/-- Two well-formed alerts with distinct, non-empty identifiers. -/
def wAlertA : Alert :=
  { id := .val "alert-001", name := .val "High CPU Usage",
    message := .val "CPU above 90 percent", state := .val "Alert",
    tags := .val ["env:production"] }

/-- Second well-formed alert with a distinct, non-empty identifier. -/
def wAlertB : Alert :=
  { id := .val "alert-003", name := .val "API Response Time Degraded",
    message := .val "p95 above 500ms", state := .val "Warn",
    tags := .absent }

/-! ### C2: severity mapping -/

/-- C2 counterexample: an alert whose dict has no "state" key is mapped to
severity 5 (the `alert.get("state", "Alert")` default), not to the
claimed default 4. -/
theorem severity_missing_state_yields_five :
    (IncidentService.create_incident_from_alert "f0" 0 emptyAlert).severity = some 5 ∧
    (IncidentService.create_incident_from_alert "f0" 0 emptyAlert).severity ≠ some 4 := by
  constructor <;> decide

/-- C2 (amended): severity is derived from the alert state by the fixed
lookup "Alert" → 5, "Warn" → 3, "No Data" → 2, any other present value
(null included) → 4, while a missing state key defaults to "Alert" and so
yields 5; the created incident carries exactly this severity. -/
theorem severity_mapping (s fid : String) (now : Nat) (a : Alert) :
    severityFromState (.val "Alert") = 5 ∧
    severityFromState (.val "Warn") = 3 ∧
    severityFromState (.val "No Data") = 2 ∧
    severityFromState .null = 4 ∧
    severityFromState .absent = 5 ∧
    (s ≠ "Alert" → s ≠ "Warn" → s ≠ "No Data" → severityFromState (.val s) = 4) ∧
    (IncidentService.create_incident_from_alert fid now a).severity =
      some (severityFromState a.state) := by
  refine ⟨by decide, by decide, by decide, by decide, by decide, ?_, ?_⟩
  · intro h1 h2 h3
    simp [severityFromState, DVal.get, h1, h2, h3]
  · unfold IncidentService.create_incident_from_alert
    cases h : a.tags.getOpt with
    | none => rfl
    | some ts =>
      by_cases he : ts.isEmpty <;> simp [he, Incident.create]

/-- Witness for `severity_mapping` at the unrecognized state "foo". -/
theorem severity_mapping_witness :
    (("foo" : String) ≠ "Alert" ∧ ("foo" : String) ≠ "Warn" ∧
      ("foo" : String) ≠ "No Data") ∧
    severityFromState (.val "foo") = 4 :=
  ⟨⟨by decide, by decide, by decide⟩,
   (severity_mapping "foo" "f0" 0 emptyAlert).2.2.2.2.2.1
     (by decide) (by decide) (by decide)⟩

/-! ### C4: lifecycle status only advances -/

/-- C4: `acknowledge` succeeds exactly from status "detected" and moves it
to "acknowledged" without touching `resolved_at`; `resolve` succeeds
exactly from "detected" or "acknowledged" and moves the status to
"resolved" without touching `acknowledged_at`; a failed call leaves the
incident unchanged; every successful call strictly increases the status
rank, so the status never moves backward and each call performs at most
one of the two timestamp transitions. -/
theorem incident_status_advances (inc : Incident) (asg rc : String)
    (steps : List String) (t u : Nat) :
    ((inc.acknowledge asg t).2 = none ↔ inc.status = some "detected") ∧
    ((inc.acknowledge asg t).2 = none →
      (inc.acknowledge asg t).1.status = some "acknowledged" ∧
      (inc.acknowledge asg t).1.resolved_at = inc.resolved_at ∧
      statusRank inc.status < statusRank (inc.acknowledge asg t).1.status) ∧
    ((inc.acknowledge asg t).2 ≠ none → (inc.acknowledge asg t).1 = inc) ∧
    ((inc.resolve rc steps u).2 = none ↔
      (inc.status = some "detected" ∨ inc.status = some "acknowledged")) ∧
    ((inc.resolve rc steps u).2 = none →
      (inc.resolve rc steps u).1.status = some "resolved" ∧
      (inc.resolve rc steps u).1.acknowledged_at = inc.acknowledged_at ∧
      statusRank inc.status < statusRank (inc.resolve rc steps u).1.status) ∧
    ((inc.resolve rc steps u).2 ≠ none → (inc.resolve rc steps u).1 = inc) := by
  unfold Incident.acknowledge Incident.resolve
  by_cases hd : inc.status = some "detected"
  · simp [hd, statusRank]
  · by_cases ha : inc.status = some "acknowledged"
    · simp [hd, ha, statusRank]
    · simp [hd, ha]

/-- Witness for `incident_status_advances` on a freshly detected
incident. -/
theorem incident_status_advances_witness :
    (sampleIncident.acknowledge "alice" 1).2 = none ∧
    (sampleIncident.acknowledge "alice" 1).1.status = some "acknowledged" ∧
    (sampleIncident.resolve "root" ["step"] 2).2 = none ∧
    (sampleIncident.resolve "root" ["step"] 2).1.status = some "resolved" :=
  ⟨by decide,
   ((incident_status_advances sampleIncident "alice" "root" ["step"] 1 2).2.1
     (by decide)).1,
   by decide,
   ((incident_status_advances sampleIncident "alice" "root" ["step"] 1 2).2.2.2.2.1
     (by decide)).1⟩

/-! ### C5: double acknowledge fails -/

/-- C5: after a successful `acknowledge`, a second `acknowledge` raises an
InvalidTransition error whose message contains the current status
("acknowledged"), and the failed call leaves the incident exactly as it
was (the raise precedes every assignment). -/
theorem acknowledge_twice_fails (inc : Incident) (a1 a2 : String) (t1 t2 : Nat)
    (h : inc.status = some "detected") :
    (inc.acknowledge a1 t1).2 = none ∧
    ((inc.acknowledge a1 t1).1.acknowledge a2 t2).2 =
      some ("Cannot acknowledge incident in " ++
        pyDisplay ((inc.acknowledge a1 t1).1.status) ++ " status") ∧
    (∃ pre post,
      ("Cannot acknowledge incident in " ++
        pyDisplay ((inc.acknowledge a1 t1).1.status) ++ " status") =
      pre ++ pyDisplay ((inc.acknowledge a1 t1).1.status) ++ post) ∧
    ((inc.acknowledge a1 t1).1.acknowledge a2 t2).1 = (inc.acknowledge a1 t1).1 := by
  refine ⟨?_, ?_, ⟨"Cannot acknowledge incident in ", " status", rfl⟩, ?_⟩ <;>
    simp [Incident.acknowledge, h]

/-- Witness for `acknowledge_twice_fails` on a freshly detected
incident. -/
theorem acknowledge_twice_fails_witness :
    sampleIncident.status = some "detected" ∧
    ((sampleIncident.acknowledge "alice" 1).1.acknowledge "bob" 2).2 =
      some ("Cannot acknowledge incident in " ++
        pyDisplay ((sampleIncident.acknowledge "alice" 1).1.status) ++ " status") :=
  ⟨by decide,
   (acknowledge_twice_fails sampleIncident "alice" "bob" 1 2 (by decide)).2.1⟩

/-! ### Small computation lemmas about dict values -/

/-- Subscripting a key that `to_dict` emitted never raises. -/
@[simp] theorem DVal.item_ofOpt {α : Type} (x : Option α) :
    (DVal.ofOpt x).item = .ok x := by cases x <;> rfl

/-- Defaultless `get` after `to_dict` returns the original attribute. -/
@[simp] theorem DVal.getOpt_ofOpt {α : Type} (x : Option α) :
    (DVal.ofOpt x).getOpt = x := by cases x <;> rfl

/-- Defaulted `get` after `to_dict` returns the original attribute (the
key is present, so the default never applies). -/
@[simp] theorem DVal.get_ofOpt {α : Type} (x : Option α) (d : α) :
    (DVal.ofOpt x).get d = x := by cases x <;> rfl

/-! ### C1: the store contract's duplicate lookup -/

/-- C1 (code bug): `sync_datadog_alerts` invokes
`find_by_datadog_alert_id` on its store, and the table-backed store
defines it, but the file-backed `IncidentStore` — the service's default
store, and the store its own test suite exercises — defines no such
method, so the call raises `AttributeError` instead of returning
not-found. -/
theorem json_store_lacks_find_by_alert_id :
    "find_by_datadog_alert_id" ∈ syncStoreCalls ∧
    "find_by_datadog_alert_id" ∉ IncidentStoreMethodNames ∧
    "find_by_datadog_alert_id" ∈ DynamoDBStoreMethodNames := by
  refine ⟨by decide, by decide, by decide⟩

/-! ### C7: fetch failure degrades to an empty sync -/

/-- C7: a throwing fetch is caught inside `get_active_alerts` and yields
the empty alert list, so the sync returns no new incidents and leaves the
store untouched — the same observable outcome as a sync over an empty
alert list. -/
theorem fetch_error_degrades_to_empty_sync (err : String) (store : StoreState)
    (fid : Nat → String) (now : Nat → Nat) :
    DatadogClient.get_active_alerts (.error err) = [] ∧
    IncidentService.sync_datadog_alerts fid now
      (some (DatadogClient.get_active_alerts (.error err))) store =
      .ok (store, []) ∧
    IncidentService.sync_datadog_alerts fid now (some []) store =
      .ok (store, []) :=
  ⟨rfl, rfl, rfl⟩

/-! ### C9: deserialization refreshes a missing detected_at -/

/-- C9: whenever `from_dict` succeeds, the result's `detected_at` is
non-null, and when the record's `detected_at` entry is absent or null it
is exactly the construction-time instant `now` — absence is not
preserved. -/
theorem from_dict_fresh_detected_at (data : IncidentRecord) (fid : String)
    (now : Nat) (inc : Incident)
    (h : Incident.from_dict fid now data = .ok inc) :
    inc.detected_at ≠ none ∧
    ((data.detected_at = .absent ∨ data.detected_at = .null) →
      inc.detected_at = some now) := by
  revert h
  unfold Incident.from_dict
  cases data.title.item with
  | error e => intro h; exact Except.noConfusion h
  | ok title =>
    cases data.description.item with
    | error e => intro h; exact Except.noConfusion h
    | ok description =>
      cases data.severity.item with
      | error e => intro h; exact Except.noConfusion h
      | ok severity =>
        cases data.id.item with
        | error e => intro h; exact Except.noConfusion h
        | ok idv =>
          cases data.status.item with
          | error e => intro h; exact Except.noConfusion h
          | ok status =>
            intro h
            injection h with h'
            subst h'
            constructor
            · cases hd : data.detected_at <;>
                simp [overrideTime, DVal.getOpt, Incident.create, hd]
            · rintro (hc | hc) <;>
                simp [overrideTime, DVal.getOpt, Incident.create, hc]

/-- Witness for `from_dict_fresh_detected_at` on a record with a null
`detected_at`. -/
theorem from_dict_fresh_detected_at_witness :
    Incident.from_dict "fresh" 7 c9record =
      .ok { sampleIncident with detected_at := some 7 } ∧
    c9record.detected_at = DVal.null ∧
    ({ sampleIncident with detected_at := some 7 } : Incident).detected_at =
      some 7 :=
  ⟨rfl, rfl,
   (from_dict_fresh_detected_at c9record "fresh" 7
      { sampleIncident with detected_at := some 7 } rfl).2 (Or.inr rfl)⟩

/-! ### C6: serialize/deserialize round trip -/

/-- Overwriting with a non-null serialized timestamp restores it. -/
@[simp] theorem overrideTime_ofOpt_some (cur : Option Nat) (t : Nat) :
    overrideTime cur (.ofOpt (some t)) = some t := rfl

/-- Overwriting with a null serialized timestamp keeps the constructed
value. -/
@[simp] theorem overrideTime_ofOpt_none (cur : Option Nat) :
    overrideTime cur (.ofOpt none) = cur := rfl

/-- Deserializing a serialized incident succeeds and yields this incident:
every field of the original except that a null `detected_at` would be
replaced by the fresh construction instant. -/
theorem from_dict_to_dict (inc : Incident) (fid : String) (now : Nat) :
    Incident.from_dict fid now inc.to_dict = .ok
      { id := inc.id
        title := inc.title
        description := inc.description
        severity := inc.severity
        source := inc.source
        datadog_alert_id := inc.datadog_alert_id
        status := inc.status
        assignee := inc.assignee
        detected_at := overrideTime (some now) (.ofOpt inc.detected_at)
        acknowledged_at := overrideTime none (.ofOpt inc.acknowledged_at)
        resolved_at := overrideTime none (.ofOpt inc.resolved_at)
        root_cause := inc.root_cause
        resolution_steps := inc.resolution_steps
        tags := inc.tags } := by
  simp [Incident.from_dict, Incident.to_dict, Incident.create]

/-- C6: for every incident with a non-null `detected_at` (every incident
the class can construct), deserializing its serialization reproduces the
status, identifier, severity, tags and all three timestamps exactly. -/
theorem serialize_roundtrip (inc : Incident) (fid : String) (now : Nat)
    (h : inc.detected_at ≠ none) :
    ∃ inc', Incident.from_dict fid now inc.to_dict = .ok inc' ∧
      inc'.status = inc.status ∧ inc'.id = inc.id ∧
      inc'.severity = inc.severity ∧ inc'.tags = inc.tags ∧
      inc'.detected_at = inc.detected_at ∧
      inc'.acknowledged_at = inc.acknowledged_at ∧
      inc'.resolved_at = inc.resolved_at := by
  obtain ⟨t, ht⟩ : ∃ t, inc.detected_at = some t := by
    cases hd : inc.detected_at
    · exact absurd hd h
    · exact ⟨_, rfl⟩
  refine ⟨_, from_dict_to_dict inc fid now, rfl, rfl, rfl, rfl, ?_, ?_, ?_⟩
  · rw [ht]; rfl
  · cases inc.acknowledged_at <;> rfl
  · cases inc.resolved_at <;> rfl

/-- Witness for `serialize_roundtrip` on a freshly created incident. -/
theorem serialize_roundtrip_witness :
    sampleIncident.detected_at ≠ none ∧
    ∃ inc', Incident.from_dict "fresh" 9 sampleIncident.to_dict = .ok inc' ∧
      inc'.status = sampleIncident.status ∧ inc'.id = sampleIncident.id ∧
      inc'.severity = sampleIncident.severity ∧
      inc'.tags = sampleIncident.tags ∧
      inc'.detected_at = sampleIncident.detected_at ∧
      inc'.acknowledged_at = sampleIncident.acknowledged_at ∧
      inc'.resolved_at = sampleIncident.resolved_at :=
  ⟨by decide, serialize_roundtrip sampleIncident "fresh" 9 (by decide)⟩

/-! ### Store save lemmas (shared) -/

/-- When no stored incident has the saved incident's identifier, the scan
finds no match and `save` appends. -/
theorem save_append_of_not_mem (store : StoreState) (inc : Incident)
    (h : ∀ e ∈ store, e.id ≠ inc.id) : Store.save store inc = store ++ [inc] := by
  induction store with
  | nil => rfl
  | cons e rest ih =>
    have he : (e.id == inc.id) = false := by
      simpa using h e (by simp)
    simp only [Store.save, he, Bool.false_eq_true, if_false, List.cons_append,
      List.cons.injEq, true_and]
    exact ih (fun x hx => h x (by simp [hx]))

/-- The scan replaces the first incident carrying the saved identifier in
place, leaving everything before and after untouched. -/
theorem save_replace (s₁ : List Incident) (inc0 inc : Incident) (s₂ : List Incident)
    (hid : inc0.id = inc.id) (h : ∀ e ∈ s₁, e.id ≠ inc.id) :
    Store.save (s₁ ++ inc0 :: s₂) inc = s₁ ++ inc :: s₂ := by
  induction s₁ with
  | nil => simp [Store.save, hid]
  | cons e s₁ ih =>
    have he : (e.id == inc.id) = false := by
      simpa using h e (by simp)
    simp only [List.cons_append, Store.save, he, Bool.false_eq_true, if_false,
      List.cons.injEq, true_and]
    exact ih (fun x hx => h x (by simp [hx]))

/-- The incidents whose identifier differs from the saved one are exactly
preserved, content and relative order alike. -/
theorem save_filter_ne (store : StoreState) (inc : Incident) :
    (Store.save store inc).filter (fun e => !(e.id == inc.id)) =
      store.filter (fun e => !(e.id == inc.id)) := by
  induction store with
  | nil => simp [Store.save]
  | cons e rest ih =>
    by_cases he : (e.id == inc.id) = true
    · simp [Store.save, he]
    · have he' : (e.id == inc.id) = false := by simpa using he
      simp [Store.save, he', ih]

/-! ### C10: save is a positional upsert -/

/-- C10: `save` leaves every stored incident with a different identifier
unchanged and in its original relative order (the filtered sublist is
equal); with no identifier match it appends, and with a match it replaces
the matching incident in place at its existing position. -/
theorem save_upsert_frame (store s₁ s₂ : StoreState) (inc inc0 : Incident) :
    ((Store.save store inc).filter (fun e => !(e.id == inc.id)) =
      store.filter (fun e => !(e.id == inc.id))) ∧
    ((∀ e ∈ store, e.id ≠ inc.id) → Store.save store inc = store ++ [inc]) ∧
    ((∀ e ∈ s₁, e.id ≠ inc.id) → inc0.id = inc.id →
      Store.save (s₁ ++ inc0 :: s₂) inc = s₁ ++ inc :: s₂) :=
  ⟨save_filter_ne store inc,
   fun h => save_append_of_not_mem store inc h,
   fun h hid => save_replace s₁ inc0 inc s₂ hid h⟩

/-- Witness for `save_upsert_frame`: appending a new identifier, then
replacing it in place with its acknowledged version. -/
theorem save_upsert_frame_witness :
    Store.save [sampleIncident] sampleIncident2 =
      [sampleIncident, sampleIncident2] ∧
    Store.save [sampleIncident, sampleIncident2]
        ((sampleIncident2.acknowledge "carol" 3).1) =
      [sampleIncident, (sampleIncident2.acknowledge "carol" 3).1] :=
  ⟨(save_upsert_frame [sampleIncident] [] [] sampleIncident2 sampleIncident2).2.1
     (by decide),
   (save_upsert_frame [] [sampleIncident] []
       ((sampleIncident2.acknowledge "carol" 3).1) sampleIncident2).2.2
     (by decide) (by decide)⟩

/-! ### C8: active incidents -/

/-- Concatenating two disjoint filters is a permutation of the disjunctive
filter. -/
theorem filter_append_perm {α : Type} (p q : α → Bool)
    (hpq : ∀ x, p x = true → q x = false) (l : List α) :
    (l.filter p ++ l.filter q).Perm (l.filter (fun x => p x || q x)) := by
  induction l with
  | nil => simp
  | cons x l ih =>
    by_cases hp : p x = true
    · have hq := hpq x hp
      simpa [hp, hq] using ih.cons x
    · have hp' : p x = false := by simpa using hp
      by_cases hq : q x = true
      · simp only [List.filter_cons, hp', hq, Bool.false_eq_true, if_false,
          if_true, Bool.false_or]
        exact List.perm_middle.trans (ih.cons x)
      · have hq' : q x = false := by simpa using hq
        simpa [hp', hq'] using ih

/-- The two status queries of `get_active_incidents` are disjoint and
together enumerate exactly the incidents satisfying `activeP`. -/
theorem get_active_perm (s : StoreState) :
    (IncidentService.get_active_incidents s).Perm (s.filter activeP) := by
  unfold IncidentService.get_active_incidents Store.find_by_status activeP
  exact filter_append_perm _ _
    (fun inc h => by
      have : inc.status = some "detected" := by simpa using h
      simp [this]) s

/-- The number of active incidents is the count of stored incidents in
status "detected" or "acknowledged". -/
theorem get_active_length (s : StoreState) :
    (IncidentService.get_active_incidents s).length = s.countP activeP := by
  rw [(get_active_perm s).length_eq, List.countP_eq_length_filter]

/-- C8: `get_active_incidents` returns exactly the stored incidents in
status "detected" or "acknowledged" (a permutation of that filter, hence
resolved incidents excluded), introduces no duplicates, and on a store of
freshly synced (all "detected") incidents with distinct identifiers,
resolving exactly one leaves N − 1 active entries while acknowledging one
leaves N. -/
theorem get_active_exactly_unresolved (s : StoreState) (inc : Incident)
    (rc asg : String) (steps : List String) (t u : Nat) :
    (IncidentService.get_active_incidents s).Perm (s.filter activeP) ∧
    (s.Nodup → (IncidentService.get_active_incidents s).Nodup) ∧
    (inc ∈ s → (∀ e ∈ s, e.status = some "detected") →
      (s.map (fun e => e.id)).Nodup →
      (IncidentService.get_active_incidents
        (Store.save s (inc.resolve rc steps u).1)).length = s.length - 1 ∧
      (IncidentService.get_active_incidents
        (Store.save s (inc.acknowledge asg t).1)).length = s.length) := by
  refine ⟨get_active_perm s, ?_, ?_⟩
  · intro hnd
    exact ((get_active_perm s).nodup_iff).mpr (hnd.filter _)
  · intro hmem hall hnd
    have hdet : inc.status = some "detected" := hall inc hmem
    obtain ⟨s₁, s₂, rfl⟩ := List.append_of_mem hmem
    have hfront : ∀ e ∈ s₁, e.id ≠ inc.id := by
      intro e he hEq
      rw [List.map_append] at hnd
      have hdisj := (List.nodup_append.mp hnd).2.2
      exact hdisj (List.mem_map_of_mem _ he) (by simp [hEq])
    have hcount₁ : s₁.countP activeP = s₁.length := by
      rw [List.countP_eq_length]
      intro e he
      have := hall e (List.mem_append_left _ he)
      simp [activeP, this]
    have hcount₂ : s₂.countP activeP = s₂.length := by
      rw [List.countP_eq_length]
      intro e he
      have := hall e (List.mem_append_right _ (List.mem_cons_of_mem _ he))
      simp [activeP, this]
    constructor
    · have hr : (inc.resolve rc steps u).1 =
          { inc with
            status := some "resolved"
            root_cause := some rc
            resolution_steps := some steps
            resolved_at := some u } := by
        simp [Incident.resolve, hdet]
      have hsave : Store.save (s₁ ++ inc :: s₂) (inc.resolve rc steps u).1 =
          s₁ ++ (inc.resolve rc steps u).1 :: s₂ :=
        save_replace s₁ inc _ s₂ (by rw [hr])
          (fun e he => by rw [hr]; exact hfront e he)
      rw [hsave, get_active_length, List.countP_append, List.countP_cons,
        hcount₁, hcount₂]
      have : activeP (inc.resolve rc steps u).1 = false := by
        rw [hr]; simp [activeP]
      rw [this]
      simp [List.length_append]
    · have ha : (inc.acknowledge asg t).1 =
          { inc with
            status := some "acknowledged"
            assignee := some asg
            acknowledged_at := some t } := by
        simp [Incident.acknowledge, hdet]
      have hsave : Store.save (s₁ ++ inc :: s₂) (inc.acknowledge asg t).1 =
          s₁ ++ (inc.acknowledge asg t).1 :: s₂ :=
        save_replace s₁ inc _ s₂ (by rw [ha])
          (fun e he => by rw [ha]; exact hfront e he)
      rw [hsave, get_active_length, List.countP_append, List.countP_cons,
        hcount₁, hcount₂]
      have : activeP (inc.acknowledge asg t).1 = true := by
        rw [ha]; simp [activeP]
      rw [this]
      simp [List.length_append]

/-- Witness for `get_active_exactly_unresolved` on a two-incident store of
detected incidents with distinct identifiers. -/
theorem get_active_exactly_unresolved_witness :
    (sampleIncident ∈ ([sampleIncident, sampleIncident2] : StoreState) ∧
      (∀ e ∈ ([sampleIncident, sampleIncident2] : StoreState),
        e.status = some "detected") ∧
      (([sampleIncident, sampleIncident2] : StoreState).map
        (fun e => e.id)).Nodup) ∧
    (IncidentService.get_active_incidents
      (Store.save [sampleIncident, sampleIncident2]
        (sampleIncident.resolve "root" ["step"] 4).1)).length = 1 ∧
    (IncidentService.get_active_incidents
      (Store.save [sampleIncident, sampleIncident2]
        (sampleIncident.acknowledge "dana" 4).1)).length = 2 :=
  ⟨⟨by decide, by decide, by decide⟩,
   ((get_active_exactly_unresolved [sampleIncident, sampleIncident2]
       sampleIncident "root" "dana" ["step"] 4 4).2.2
     (by decide) (by decide) (by decide)).1,
   ((get_active_exactly_unresolved [sampleIncident, sampleIncident2]
       sampleIncident "root" "dana" ["step"] 4 4).2.2
     (by decide) (by decide) (by decide)).2⟩

/-! ### C3: sync idempotence -/

/-- The incident built from an alert carries the supplied fresh
identifier. -/
theorem create_from_alert_id (fid : String) (now : Nat) (a : Alert) :
    (IncidentService.create_incident_from_alert fid now a).id = some fid := by
  unfold IncidentService.create_incident_from_alert
  cases h : a.tags.getOpt with
  | none => rfl
  | some ts => by_cases he : ts.isEmpty <;> simp [he, Incident.create]

/-- The incident built from an alert carries the alert's id as its
external alert identifier. -/
theorem create_from_alert_dd (fid : String) (now : Nat) (a : Alert) :
    (IncidentService.create_incident_from_alert fid now a).datadog_alert_id =
      a.id.getOpt := by
  unfold IncidentService.create_incident_from_alert
  cases h : a.tags.getOpt with
  | none => rfl
  | some ts => by_cases he : ts.isEmpty <;> simp [he, Incident.create]

/-- The duplicate lookup misses when no stored incident carries the
queried external identifier. -/
theorem find_dd_none_of_not_mem (store : StoreState) (s : String)
    (h : ∀ e ∈ store, e.datadog_alert_id ≠ some s) :
    Store.find_by_datadog_alert_id store (some s) = none := by
  unfold Store.find_by_datadog_alert_id
  have hfil : store.filter (fun inc => inc.datadog_alert_id == some s) = [] := by
    rw [List.filter_eq_nil_iff]
    intro e he
    simp [h e he]
  by_cases hs : s = "" <;> simp [hs, hfil]

/-- The duplicate lookup hits when some stored incident carries the
queried non-empty external identifier. -/
theorem find_dd_ne_none_of_mem (store : StoreState) (s : String) (hs : s ≠ "")
    (h : ∃ e ∈ store, e.datadog_alert_id = some s) :
    Store.find_by_datadog_alert_id store (some s) ≠ none := by
  obtain ⟨e, he, hdd⟩ := h
  have hmemf : e ∈ store.filter (fun inc => inc.datadog_alert_id == some s) :=
    List.mem_filter.mpr ⟨he, by simp [hdd]⟩
  show (if s = "" then none
    else (store.filter (fun inc => inc.datadog_alert_id == some s)).head?) ≠ none
  rw [if_neg hs]
  cases hl : store.filter (fun inc => inc.datadog_alert_id == some s) with
  | nil => rw [hl] at hmemf; exact absurd hmemf (List.not_mem_nil e)
  | cons a l => simp [hl]

/-- When every alert's non-empty identifier already has a stored incident,
the loop skips everything: the store is unchanged and nothing is
created. -/
theorem syncLoop_skips (fid : Nat → String) (now : Nat → Nat) :
    ∀ (alerts : List Alert) (k : Nat) (store : StoreState)
      (created : List Incident),
    (∀ a ∈ alerts, ∃ s, a.id = .val s ∧ s ≠ "" ∧
      ∃ e ∈ store, e.datadog_alert_id = some s) →
    IncidentService.syncLoop fid now k alerts store created =
      .ok (store, created) := by
  intro alerts
  induction alerts with
  | nil => intro k store created _; rfl
  | cons a rest ih =>
    intro k store created h
    obtain ⟨s, haid, hs, hex⟩ := h a (by simp)
    have hfind := find_dd_ne_none_of_mem store s hs hex
    unfold IncidentService.syncLoop
    rw [haid]
    simp only [DVal.item]
    cases hf : Store.find_by_datadog_alert_id store (some s) with
    | none => exact absurd hf hfind
    | some e => exact ih (k + 1) store created (fun a' ha' => h a' (by simp [ha']))

/-- When every alert has a present, non-empty, pairwise-distinct
identifier that is not yet in the store, and the supplied fresh incident
identifiers are themselves fresh and distinct, the loop creates one
incident per alert, appends all of them to the store in order, and
returns them. -/
theorem syncLoop_creates (fid : Nat → String) (now : Nat → Nat) :
    ∀ (alerts : List Alert) (k : Nat) (store : StoreState)
      (created : List Incident),
    (∀ a ∈ alerts, ∃ s, a.id = .val s ∧ s ≠ "") →
    (∀ a ∈ alerts, ∀ e ∈ store, e.datadog_alert_id ≠ a.id.getOpt) →
    ((alerts.map (fun a => a.id)).Nodup) →
    (∀ j, k ≤ j → j < k + alerts.length → ∀ e ∈ store, e.id ≠ some (fid j)) →
    (∀ i j, k ≤ i → i < k + alerts.length → k ≤ j → j < k + alerts.length →
      fid i = fid j → i = j) →
    ∃ new, IncidentService.syncLoop fid now k alerts store created =
        .ok (store ++ new, created ++ new) ∧
      new.length = alerts.length ∧
      new.map (fun e => e.datadog_alert_id) =
        alerts.map (fun a => a.id.getOpt) := by
  intro alerts
  induction alerts with
  | nil =>
    intro k store created _ _ _ _ _
    exact ⟨[], by simp [IncidentService.syncLoop], by simp, by simp⟩
  | cons a rest ih =>
    intro k store created hids hnotin hnd hfresh hinj
    obtain ⟨s, haid, hs⟩ := hids a (by simp)
    have hfind : Store.find_by_datadog_alert_id store (some s) = none := by
      apply find_dd_none_of_not_mem
      intro e he
      have hne := hnotin a (by simp) e he
      rw [haid] at hne
      simpa [DVal.getOpt] using hne
    have hsave : Store.save store
        (IncidentService.create_incident_from_alert (fid k) (now k) a) =
        store ++ [IncidentService.create_incident_from_alert (fid k) (now k) a] := by
      apply save_append_of_not_mem
      intro e he
      rw [create_from_alert_id]
      exact hfresh k (Nat.le_refl k) (by simp only [List.length_cons]; omega) e he
    have hndtail : a.id ∉ rest.map (fun x => x.id) ∧
        (rest.map (fun x => x.id)).Nodup := by
      have := hnd
      rw [List.map_cons, List.nodup_cons] at this
      exact this
    obtain ⟨new', hloop, hlen, hmap⟩ := ih (k + 1)
      (store ++ [IncidentService.create_incident_from_alert (fid k) (now k) a])
      (created ++ [IncidentService.create_incident_from_alert (fid k) (now k) a])
      (fun a' ha' => hids a' (by simp [ha']))
      (by
        intro a' ha' e he
        rcases List.mem_append.mp he with he' | he'
        · exact hnotin a' (by simp [ha']) e he'
        · have heq : e = IncidentService.create_incident_from_alert (fid k) (now k) a := by
            simpa using he'
          subst heq
          rw [create_from_alert_dd, haid]
          obtain ⟨s', haid', _⟩ := hids a' (by simp [ha'])
          rw [haid']
          simp only [DVal.getOpt, ne_eq, Option.some.injEq]
          intro hss
          apply hndtail.1
          have : a.id = a'.id := by rw [haid, haid', hss]
          exact this ▸ List.mem_map_of_mem _ ha')
      hndtail.2
      (by
        intro j hj1 hj2 e he
        rcases List.mem_append.mp he with he' | he'
        · exact hfresh j (by omega) (by simp only [List.length_cons]; omega) e he'
        · have heq : e = IncidentService.create_incident_from_alert (fid k) (now k) a := by
            simpa using he'
          subst heq
          rw [create_from_alert_id]
          intro hEq
          have hfe : fid k = fid j := by simpa using hEq
          have := hinj k j (Nat.le_refl k) (by simp only [List.length_cons]; omega)
            (by omega) (by simp only [List.length_cons]; omega) hfe
          omega)
      (fun i j hi1 hi2 hj1 hj2 hf =>
        hinj i j (by omega) (by simp only [List.length_cons]; omega) (by omega)
          (by simp only [List.length_cons]; omega) hf)
    refine ⟨IncidentService.create_incident_from_alert (fid k) (now k) a :: new',
      ?_, by simpa using hlen, ?_⟩
    · unfold IncidentService.syncLoop
      rw [haid]
      simp only [DVal.item]
      rw [hfind, hsave, hloop]
      simp
    · simp [hmap, create_from_alert_dd]

/-- C3 counterexample: a single alert whose identifier is the empty
string. The duplicate lookup's `if not alert_id` guard can never match
it, so the second sync over the unchanged alert list creates (and
returns) an incident again instead of returning the empty sequence. -/
theorem sync_empty_id_alert_not_deduped :
    IncidentService.sync_datadog_alerts natId id (some [emptyIdAlert]) [] =
      .ok ([c3inc0], [c3inc0]) ∧
    IncidentService.sync_datadog_alerts natId id (some [emptyIdAlert]) [c3inc0] =
      .ok ([c3inc0], [c3inc0]) ∧
    ([c3inc0] : List Incident) ≠ [] := by
  refine ⟨rfl, rfl, by decide⟩

/-- C3 (amended): for every alert list whose identifiers are present,
non-empty and pairwise distinct, an empty initial store, and an injective
fresh-identifier supply, the first sync creates, stores and returns one
incident per alert, and a second sync against the unchanged alert list
returns the empty sequence and leaves the store unchanged. -/
theorem sync_twice_idempotent (alerts : List Alert) (fid gid : Nat → String)
    (now mow : Nat → Nat)
    (hids : ∀ a ∈ alerts, a.id.isNonemptyVal = true)
    (hdist : (alerts.map (fun a => a.id)).Nodup)
    (hinj : ∀ i j, i < alerts.length → j < alerts.length → fid i = fid j →
      i = j) :
    ∃ created, IncidentService.sync_datadog_alerts fid now (some alerts) [] =
        .ok (created, created) ∧
      created.length = alerts.length ∧
      IncidentService.sync_datadog_alerts gid mow (some alerts) created =
        .ok (created, []) := by
  have hids' : ∀ a ∈ alerts, ∃ s, a.id = .val s ∧ s ≠ "" := by
    intro a ha
    have hv := hids a ha
    cases haid : a.id with
    | absent => rw [haid] at hv; exact absurd hv (by simp [DVal.isNonemptyVal])
    | null => rw [haid] at hv; exact absurd hv (by simp [DVal.isNonemptyVal])
    | val s =>
      rw [haid] at hv
      exact ⟨s, rfl, by simpa [DVal.isNonemptyVal] using hv⟩
  obtain ⟨new, hloop, hlen, hmap⟩ := syncLoop_creates fid now alerts 0 [] [] hids'
    (fun a _ e he => absurd he (List.not_mem_nil e))
    hdist
    (fun j _ _ e he => absurd he (List.not_mem_nil e))
    (fun i j _ hi2 _ hj2 hf => hinj i j (by omega) (by omega) hf)
  refine ⟨new, ?_, hlen, ?_⟩
  · unfold IncidentService.sync_datadog_alerts
    simpa using hloop
  · unfold IncidentService.sync_datadog_alerts
    apply syncLoop_skips
    intro a ha
    obtain ⟨s, haid, hs⟩ := hids' a ha
    refine ⟨s, haid, hs, ?_⟩
    have hin : a.id.getOpt ∈ new.map (fun e => e.datadog_alert_id) := by
      rw [hmap]; exact List.mem_map_of_mem _ ha
    rw [haid] at hin
    simp only [DVal.getOpt] at hin
    obtain ⟨e, he, hdd⟩ := List.mem_map.mp hin
    exact ⟨e, he, hdd⟩

/-- Witness for `sync_twice_idempotent` on two concrete alerts with
distinct non-empty identifiers. -/
theorem sync_twice_idempotent_witness :
    ((∀ a ∈ ([wAlertA, wAlertB] : List Alert), a.id.isNonemptyVal = true) ∧
      (([wAlertA, wAlertB] : List Alert).map (fun a => a.id)).Nodup ∧
      (∀ i j, i < ([wAlertA, wAlertB] : List Alert).length →
        j < ([wAlertA, wAlertB] : List Alert).length → natId i = natId j →
        i = j)) ∧
    ∃ created,
      IncidentService.sync_datadog_alerts natId id (some [wAlertA, wAlertB]) [] =
        .ok (created, created) ∧
      created.length = ([wAlertA, wAlertB] : List Alert).length ∧
      IncidentService.sync_datadog_alerts natId id (some [wAlertA, wAlertB])
          created =
        .ok (created, []) :=
  ⟨⟨by decide, by decide,
    by
      intro i j hi hj hf
      have hi2 : i < 2 := by simpa using hi
      have hj2 : j < 2 := by simpa using hj
      interval_cases i <;> interval_cases j <;>
        first | rfl | exact absurd hf (by decide)⟩,
   sync_twice_idempotent [wAlertA, wAlertB] natId natId id id
     (by decide) (by decide)
     (by
      intro i j hi hj hf
      have hi2 : i < 2 := by simpa using hi
      have hj2 : j < 2 := by simpa using hj
      interval_cases i <;> interval_cases j <;>
        first | rfl | exact absurd hf (by decide))⟩
